import Mathlib

/-!
Shallow embedding of the configuration and cryptographic-material
coordination subsystem of mattermost-server (file app/config.go).

External collaborators (the config.Store from the config package, the
System key-value store, the cluster transport, the JSON codec and the
crypto primitives) are not part of the given source; where their behavior
decides a claim they are modelled from the spec, and otherwise their
outcomes are passed in as oracle parameters.
-/

namespace MMApp

deriving instance DecidableEq for Except

/-- Go error values are modelled by their message string. -/
abbrev GoErr := String

/-! ## Configuration documents (model.Config) -/

/-- model.Config.MetricsSettings: the one field app/config.go reads. -/
structure MetricsSettings where
  enable : Bool
deriving DecidableEq, Repr

/-- model.Config.MessageExportSettings: the fields HandleMessageExportConfig
touches. In Go these are pointers; the spec states documents are always
fully populated and defaulted, so we model plain values. -/
structure MessageExportSettings where
  enableExport : Bool
  exportFromTimestamp : Int
deriving DecidableEq, Repr

/-- model.Config, restricted to what app/config.go inspects.
`envOverrides` models which values of the document are currently driven by
environment variables (name/value pairs); `validFlag` is modelled from the
spec: whether the document passes structural validation (full schema
validation is an explicit non-goal of the spec). `payload` stands for all
remaining configuration fields, so that distinct documents are
distinguishable. -/
structure Config where
  metricsSettings : MetricsSettings
  messageExportSettings : MessageExportSettings
  envOverrides : List (String × String)
  validFlag : Bool
  payload : Nat
deriving DecidableEq, Repr

/-! ## The config store (config.Store), modelled from the spec -/

/-- Modelled from the spec: config.Store state. It holds the active
immutable document, the read-only flag and the listener registry
(listener ids; the callbacks themselves are external). -/
structure ConfigStore where
  active : Config
  readOnly : Bool
  listeners : List String
deriving DecidableEq, Repr

/-- Observable side effects of the operations in app/config.go, recorded in
order. A call that is never made leaves no event. -/
inductive Event
  | mutatorApplied
  | listenerFired (id : String)
  | metricsRegister
  | setupMetricsServer
  | stopMetricsServer
  | configChanged (oldCfg newCfg : Config) (broadcast : Bool)
deriving DecidableEq, Repr

/-- The two failure modes of config.Store.Set that app/config.go
distinguishes: config.ErrReadOnlyConfiguration (matched via errors.Cause)
versus any other failure (modelled from the spec as structural validation
failure). -/
inductive StoreErr
  | readOnly
  | other (msg : String)
deriving DecidableEq, Repr

/-- The message carried by a store error (err.Error() in Go). -/
def storeErrMsg : StoreErr → String
  | .readOnly => "configuration is read-only"
  | .other m => m

/-- Modelled from the spec: config.Store.Get returns the currently active
document; never blocks, never fails. -/
def Store.Get (s : ConfigStore) : Config :=
  s.active

/-- Modelled from the spec: config.Store.IsReadOnly. -/
def Store.IsReadOnly (s : ConfigStore) : Bool :=
  s.readOnly

/-- Modelled from the spec: config.Store.Set validates and installs the new
document as active. It fails with ErrReadOnlyConfiguration when the store
is read-only and with a generic failure when validation rejects the
document, leaving the prior document active; on success it swaps the
active document and invokes every registered listener exactly once. -/
def Store.Set (s : ConfigStore) (newCfg : Config) :
    Except StoreErr (Config × Config) × ConfigStore × List Event :=
  if s.readOnly then
    (.error .readOnly, s, [])
  else if !newCfg.validFlag then
    (.error (.other "invalid config"), s, [])
  else
    (.ok (s.active, newCfg), { s with active := newCfg },
      s.listeners.map Event.listenerFired)

/-- Modelled from the spec: config.Store.RemoveEnvironmentOverrides strips
all environment-variable-driven overrides from a document. -/
def RemoveEnvironmentOverrides (c : Config) : Config :=
  { c with envOverrides := [] }

/-! ## The configWrapper operations (app/config.go) -/

/-- model.AppError, restricted to the fields the claims mention:
the location (first NewAppError argument), the translation id, the
detailed error and the HTTP status code. -/
structure AppError where
  location : String
  id : String
  detailedError : String
  statusCode : Nat
deriving DecidableEq, Repr

/-- Server-side collaborators of configWrapper.SaveConfig: srv.startMetrics,
whether srv.Metrics is non-nil, whether srv.Cluster is non-nil, and the
outcome the cluster transport would report for ConfigChanged. -/
structure SrvEnv where
  startMetrics : Bool
  hasMetrics : Bool
  hasCluster : Bool
  clusterErr : Option AppError
deriving DecidableEq, Repr

/-- The outcome of configWrapper.SaveConfig: the returned
(oldConfig, newConfig, error) triple, the resulting store state, and the
side effects performed. -/
structure SaveOut where
  oldCfg : Option Config
  newCfg : Option Config
  err : Option AppError
  store : ConfigStore
  events : List Event
deriving DecidableEq, Repr

/-- The metrics block of configWrapper.SaveConfig, as the side effects it
performs given srv.startMetrics, srv.Metrics and the enable flag read from
the freshly installed document: Register (when a metrics implementation is
present) and SetupMetricsServer when startMetrics and the flag both hold,
StopMetricsServer otherwise. -/
def metricsToggleEvents (env : SrvEnv) (enabled : Bool) : List Event :=
  if env.startMetrics && enabled then
    (if env.hasMetrics then [Event.metricsRegister] else [])
      ++ [Event.setupMetricsServer]
  else
    [Event.stopMetricsServer]

/-- configWrapper.SaveConfig (app/config.go). Sets the document via the
store; maps a read-only failure to a 403 AppError and any other failure to
a 500 AppError; on success toggles the metrics subsystem (the block split
out as metricsToggleEvents, driven by the newly active document), then,
when a cluster is configured, notifies it with both documents stripped of
environment overrides, returning (nil, nil, err) when that notification
fails. -/
def SaveConfig (env : SrvEnv) (s : ConfigStore) (newCfg0 : Config)
    (sendConfigChangeClusterMessage : Bool) : SaveOut :=
  match Store.Set s newCfg0 with
  | (.error .readOnly, s1, evs) =>
    ⟨none, none,
      some ⟨"saveConfig", "ent.cluster.save_config.error",
        storeErrMsg .readOnly, 403⟩, s1, evs⟩
  | (.error (.other m), s1, evs) =>
    ⟨none, none,
      some ⟨"saveConfig", "app.save_config.app_error",
        storeErrMsg (.other m), 500⟩, s1, evs⟩
  | (.ok (oldCfg, newCfg), s1, evs) =>
    let metricsEvs := metricsToggleEvents env (Store.Get s1).metricsSettings.enable
    if env.hasCluster then
      let ccEv := Event.configChanged (RemoveEnvironmentOverrides oldCfg)
        (RemoveEnvironmentOverrides newCfg) sendConfigChangeClusterMessage
      match env.clusterErr with
      | some e => ⟨none, none, some e, s1, evs ++ metricsEvs ++ [ccEv]⟩
      | none => ⟨some oldCfg, some newCfg, none, s1, evs ++ metricsEvs ++ [ccEv]⟩
    else
      ⟨some oldCfg, some newCfg, none, s1, evs ++ metricsEvs⟩

/-- The outcome of configWrapper.UpdateConfig: the resulting store state and
the side effects performed (`Event.mutatorApplied` records that the mutator
f was invoked; listener events record listener invocation by Store.Set). -/
structure UpdateOut where
  store : ConfigStore
  events : List Event
deriving DecidableEq, Repr

/-- configWrapper.UpdateConfig (app/config.go): returns immediately when the
store is read-only; otherwise clones the active document, applies the
mutator and installs the result via Store.Set, only logging any failure.
Cloning is the identity in this value-semantics model. -/
def UpdateConfig (s : ConfigStore) (f : Config → Config) : UpdateOut :=
  if Store.IsReadOnly s then
    ⟨s, []⟩
  else
    let old := Store.Get s
    let updated := f old
    match Store.Set s updated with
    | (_, s1, evs) => ⟨s1, Event.mutatorApplied :: evs⟩

/-! ## The secret coordinator (ensurePostActionCookieSecret /
ensureAsymmetricSigningKey) -/

/-- Byte sequences (e.g. the 32-byte cookie secret) as lists of byte
values. -/
abbrev Bytes := List Nat

/-- Side effects of a secret-ensure call, in order: the initial GetByName,
the Save of a freshly generated secret, the fallback GetByName after a
failed Save, and the client-config regeneration performed after the
asymmetric key resolves. -/
inductive SecretEvent
  | readInitial
  | saveAttempt
  | readFallback
  | regenClientConfig
deriving DecidableEq, Repr

/-- How a secret-ensure call in Go terminates: a nil error, a non-nil
error, or a nil-pointer dereference (possible when a stored literal JSON
null decodes to a nil pointer that is then dereferenced). -/
inductive GoResult
  | ok
  | err (e : GoErr)
  | panicked
deriving DecidableEq, Repr

/-- True exactly when the result is a returned (non-nil) error. -/
def GoResult.isErr : GoResult → Bool
  | .err _ => true
  | _ => false

/-- The value space of a System record holding the cookie secret:
undecodable bytes, the JSON literal null, or a marshalled
model.SystemPostActionCookieSecret. -/
inductive RawCookieVal
  | corrupt
  | nullLit
  | marshalled (secret : Bytes)
deriving DecidableEq, Repr

/-- Modelled from the stdlib json.Unmarshal semantics on a
pointer-to-struct target: corrupt input errors, the literal null leaves
the pointer nil, and a marshalled record round-trips. -/
def unmarshalCookieSecret : RawCookieVal → Except GoErr (Option Bytes)
  | .corrupt => .error "json unmarshal error"
  | .nullLit => .ok none
  | .marshalled s => .ok (some s)

/-- Oracle outcomes for one ensurePostActionCookieSecret call: the two
GetByName round-trips against the System store, the rand.Reader read that
fills the fresh 32-byte secret, and the error (if any) reported by the
insert-if-absent Save. -/
structure CookieEnv where
  read1 : Except GoErr RawCookieVal
  randRead : Except GoErr Bytes
  saveRes : Option GoErr
  read2 : Except GoErr RawCookieVal
deriving DecidableEq, Repr

/-- Outcome of ensurePostActionCookieSecret: termination mode, the cached
secret (ch.postActionCookieSecret) afterwards, and the store round-trips
performed. -/
structure CookieOut where
  res : GoResult
  cached : Option Bytes
  events : List SecretEvent
deriving DecidableEq, Repr

/-- The first phase of ensurePostActionCookieSecret: GetByName followed,
only when that read succeeded, by json.Unmarshal, whose error is returned;
a failed read leaves the secret nil without error. -/
def cookieInitialRead (r : Except GoErr RawCookieVal) :
    Except GoErr (Option Bytes) :=
  match r with
  | .error _ => .ok none
  | .ok v => unmarshalCookieSecret v

/-- ensurePostActionCookieSecret (app/config.go): fast path on a cached
secret; otherwise read-and-decode, generate-and-save when absent (a Save
failure is only logged), fall back to a second read when the Save did not
install the fresh secret, and finally cache whichever secret is
authoritative. -/
def ensurePostActionCookieSecret (cached : Option Bytes) (env : CookieEnv) :
    CookieOut :=
  if cached.isSome then ⟨.ok, cached, []⟩ else
  match cookieInitialRead env.read1 with
  | .error e => ⟨.err e, cached, [.readInitial]⟩
  | .ok (some s) => ⟨.ok, some s, [.readInitial]⟩
  | .ok none =>
    match env.randRead with
    | .error e => ⟨.err e, cached, [.readInitial]⟩
    | .ok bytes =>
      if env.saveRes.isSome then
        -- Save failed: only logged, the secret stays nil, fall back.
        match env.read2 with
        | .error e => ⟨.err e, cached, [.readInitial, .saveAttempt, .readFallback]⟩
        | .ok v =>
          match unmarshalCookieSecret v with
          | .error e =>
            ⟨.err e, cached, [.readInitial, .saveAttempt, .readFallback]⟩
          | .ok none =>
            ⟨.panicked, cached, [.readInitial, .saveAttempt, .readFallback]⟩
          | .ok (some s) =>
            ⟨.ok, some s, [.readInitial, .saveAttempt, .readFallback]⟩
      else
        ⟨.ok, some bytes, [.readInitial, .saveAttempt]⟩

/-- model.SystemECDSAKey: the persisted form of the asymmetric signing
key, with big integers modelled as Int. -/
structure SystemECDSAKey where
  curve : String
  x : Int
  y : Int
  d : Int
deriving DecidableEq, Repr

/-- The value space of a System record holding the asymmetric signing
key. -/
inductive RawKeyVal
  | corrupt
  | nullLit
  | marshalled (k : SystemECDSAKey)
deriving DecidableEq, Repr

/-- Modelled from the stdlib json.Unmarshal semantics, as for the cookie
secret. -/
def unmarshalSigningKey : RawKeyVal → Except GoErr (Option SystemECDSAKey)
  | .corrupt => .error "json unmarshal error"
  | .nullLit => .ok none
  | .marshalled k => .ok (some k)

/-- The coordinates produced by ecdsa.GenerateKey on elliptic.P256(). -/
structure ECDSAGenerated where
  x : Int
  y : Int
  d : Int
deriving DecidableEq, Repr

/-- Oracle outcomes for one ensureAsymmetricSigningKey call. -/
structure KeyEnv where
  read1 : Except GoErr RawKeyVal
  genKey : Except GoErr ECDSAGenerated
  saveRes : Option GoErr
  read2 : Except GoErr RawKeyVal
deriving DecidableEq, Repr

/-- The ecdsa.PrivateKey cached in ch.asymmetricSigningKey: its curve name
and coordinates. -/
structure PrivateKey where
  curve : String
  x : Int
  y : Int
  d : Int
deriving DecidableEq, Repr

/-- Outcome of ensureAsymmetricSigningKey: termination mode, the cached
private key afterwards, and the side effects performed. -/
structure KeyOut where
  res : GoResult
  cached : Option PrivateKey
  events : List SecretEvent
deriving DecidableEq, Repr

/-- The first phase of ensureAsymmetricSigningKey, mirroring
cookieInitialRead. -/
def keyInitialRead (r : Except GoErr RawKeyVal) :
    Except GoErr (Option SystemECDSAKey) :=
  match r with
  | .error _ => .ok none
  | .ok v => unmarshalSigningKey v

/-- The tail of ensureAsymmetricSigningKey: the switch on the resolved
record's curve name. "P-256" builds the private key, caches it and
regenerates the client config; any other name is returned as an unknown
curve error with nothing cached. -/
def adoptKey (cached : Option PrivateKey) (k : SystemECDSAKey)
    (evs : List SecretEvent) : KeyOut :=
  if k.curve = "P-256" then
    ⟨.ok, some ⟨"P-256", k.x, k.y, k.d⟩, evs ++ [.regenClientConfig]⟩
  else
    ⟨.err ("unknown curve: " ++ k.curve), cached, evs⟩

/-- ensureAsymmetricSigningKey (app/config.go): fast path on a cached key;
otherwise read-and-decode, generate-and-save when absent (a Save failure
is only logged), fall back to a second read when the Save did not install
the fresh key, then switch on the curve name of whichever record is
authoritative, caching it and regenerating the client config on "P-256"
and erroring on any other name. -/
def ensureAsymmetricSigningKey (cached : Option PrivateKey) (env : KeyEnv) :
    KeyOut :=
  if cached.isSome then ⟨.ok, cached, []⟩ else
  match keyInitialRead env.read1 with
  | .error e => ⟨.err e, cached, [.readInitial]⟩
  | .ok (some k) => adoptKey cached k [.readInitial]
  | .ok none =>
    match env.genKey with
    | .error e => ⟨.err e, cached, [.readInitial]⟩
    | .ok g =>
      if env.saveRes.isSome then
        -- Save failed: only logged, the key stays nil, fall back.
        match env.read2 with
        | .error e => ⟨.err e, cached, [.readInitial, .saveAttempt, .readFallback]⟩
        | .ok v =>
          match unmarshalSigningKey v with
          | .error e =>
            ⟨.err e, cached, [.readInitial, .saveAttempt, .readFallback]⟩
          | .ok none =>
            ⟨.panicked, cached, [.readInitial, .saveAttempt, .readFallback]⟩
          | .ok (some k) =>
            adoptKey cached k [.readInitial, .saveAttempt, .readFallback]
      else
        adoptKey cached ⟨"P-256", g.x, g.y, g.d⟩ [.readInitial, .saveAttempt]

/-! ## The client config projector (regenerateClientConfig) -/

/-- Go map[string]string, as an association list. -/
abbrev SMap := List (String × String)

/-- Reading a Go string map: a missing key yields the empty string. -/
def mapGet (m : SMap) (k : String) : String :=
  ((m.find? (fun p => p.1 == k)).map Prod.snd).getD ""

/-- Writing a Go string map: overwrite in place when the key is present,
append otherwise. -/
def mapSet (m : SMap) (k v : String) : SMap :=
  if (m.find? (fun p => p.1 == k)).isSome then
    m.map (fun p => if p.1 == k then (k, v) else p)
  else
    m ++ [(k, v)]

/-- Inputs of regenerateClientConfig drawn from outside app/config.go: the
base projections computed by config.GenerateClientConfig and
config.GenerateLimitedClientConfig from the active document, the latest
terms-of-service lookup (its id on success), and the resolved asymmetric
signing key if any. -/
structure ClientCfgEnv where
  baseClientConfig : SMap
  baseLimitedClientConfig : SMap
  termsOfServiceLookup : Except GoErr String
  asymmetricSigningKey : Option PrivateKey
deriving DecidableEq, Repr

/-- The snapshot stored by regenerateClientConfig: the two projections and
the content hash. -/
structure ClientCfgState where
  clientConfig : SMap
  limitedClientConfig : SMap
  clientConfigHash : String
deriving DecidableEq, Repr

/-- The map-building phase of regenerateClientConfig: starting from the two
base projections, inject the custom-terms-of-service id when that feature
is enabled and the lookup succeeds (a failed lookup is only logged), then
inject the base64 DER public key when an asymmetric signing key is
resolved. `encodePublicKey` stands for x509.MarshalPKIXPublicKey followed
by base64 encoding. -/
def computeClientConfigPair (env : ClientCfgEnv)
    (encodePublicKey : PrivateKey → String) : SMap × SMap :=
  let clientConfig := env.baseClientConfig
  let limitedClientConfig := env.baseLimitedClientConfig
  let step1 : SMap × SMap :=
    if mapGet clientConfig "EnableCustomTermsOfService" = "true" then
      match env.termsOfServiceLookup with
      | .error _ => (clientConfig, limitedClientConfig)
      | .ok tosId =>
        (mapSet clientConfig "CustomTermsOfServiceId" tosId,
         mapSet limitedClientConfig "CustomTermsOfServiceId" tosId)
    else
      (clientConfig, limitedClientConfig)
  match env.asymmetricSigningKey with
  | some key =>
    let pk := encodePublicKey key
    (mapSet step1.1 "AsymmetricSigningPublicKey" pk,
     mapSet step1.2 "AsymmetricSigningPublicKey" pk)
  | none => step1

/-- regenerateClientConfig (app/config.go): build the two projections,
serialize the full projection (json.Marshal, passed in as `marshalJSON`),
and store the projections together with the hex md5 digest (`md5hex`) of
that serialization as the new snapshot. -/
def regenerateClientConfig (env : ClientCfgEnv)
    (marshalJSON : SMap → String) (md5hex : String → String)
    (encodePublicKey : PrivateKey → String) : ClientCfgState :=
  let pair := computeClientConfigPair env encodePublicKey
  let clientConfigJSON := marshalJSON pair.1
  ⟨pair.1, pair.2, md5hex clientConfigJSON⟩

/-! ## HandleMessageExportConfig -/

/-- App.HandleMessageExportConfig (app/config.go): when the message-export
enable flag differs between the incoming document `cfg` and the currently
active document `appCfg`, rewrite cfg's ExportFromTimestamp — to the
current time (`now`, model.GetMillis()) when the feature is being enabled
with a zero timestamp, and to 0 when it is being disabled. -/
def HandleMessageExportConfig (now : Int) (cfg appCfg : Config) : Config :=
  if cfg.messageExportSettings.enableExport
      != appCfg.messageExportSettings.enableExport then
    if cfg.messageExportSettings.enableExport
        && cfg.messageExportSettings.exportFromTimestamp == 0 then
      { cfg with messageExportSettings :=
          { cfg.messageExportSettings with exportFromTimestamp := now } }
    else if !cfg.messageExportSettings.enableExport then
      { cfg with messageExportSettings :=
          { cfg.messageExportSettings with exportFromTimestamp := 0 } }
    else
      cfg
  else
    cfg

/-! ## Helper predicates and concrete inputs used by the theorems -/

/-- The fallback read of the cookie secret fails: the second GetByName
errors, or its result does not json-decode. -/
def cookieFallbackFails (env : CookieEnv) : Bool :=
  match env.read2 with
  | .error _ => true
  | .ok v =>
    match unmarshalCookieSecret v with
    | .error _ => true
    | .ok _ => false

/-- The fallback read of the signing key fails: the second GetByName
errors, or its result does not json-decode. -/
def keyFallbackFails (env : KeyEnv) : Bool :=
  match env.read2 with
  | .error _ => true
  | .ok v =>
    match unmarshalSigningKey v with
    | .error _ => true
    | .ok _ => false

/-- The fallback read of the signing key decodes to a record naming a
curve other than the supported "P-256". -/
def keyFallbackUnknownCurve (env : KeyEnv) : Bool :=
  match env.read2 with
  | .error _ => false
  | .ok v =>
    match unmarshalSigningKey v with
    | .ok (some k) => k.curve != "P-256"
    | _ => false

/-- A valid document with metrics disabled and an environment override. -/
def cfgA : Config := ⟨⟨false⟩, ⟨false, 0⟩, [("ServiceSettings.SiteURL", "http://env")], true, 1⟩

/-- A valid document with metrics enabled and an environment override. -/
def cfgB : Config := ⟨⟨true⟩, ⟨false, 0⟩, [("SqlSettings.DataSource", "env-dsn")], true, 2⟩

/-- A writable store with cfgA active and one registered listener. -/
def storeRW : ConfigStore := ⟨cfgA, false, ["listener1"]⟩

/-- A read-only store with cfgA active and one registered listener. -/
def storeRO : ConfigStore := ⟨cfgA, true, ["listener1"]⟩

/-- A server with no cluster and metrics startup disabled. -/
def envPlain : SrvEnv := ⟨false, false, false, none⟩

/-- The error a failing cluster transport reports from ConfigChanged. -/
def appErrCluster : AppError :=
  ⟨"ConfigChanged", "cluster.config_changed.error", "transport down", 500⟩

/-- A server whose cluster transport fails every ConfigChanged call. -/
def envClusterFail : SrvEnv := ⟨false, false, true, some appErrCluster⟩

/-- A server with a healthy cluster transport. -/
def envClusterOk : SrvEnv := ⟨false, false, true, none⟩

/-- A server with a metrics implementation present but srv.startMetrics
unset, and no cluster. -/
def envNoStartMetrics : SrvEnv := ⟨false, true, false, none⟩

/-- A valid document that enables metrics. -/
def cfgMetricsOn : Config := ⟨⟨true⟩, ⟨false, 0⟩, [], true, 4⟩

/-- A document toggling message export on, with a zero export-from
timestamp. -/
def cfgExportOnZero : Config := ⟨⟨false⟩, ⟨true, 0⟩, [], true, 10⟩

/-- The active document before the toggle: export off. -/
def cfgExportOff : Config := ⟨⟨false⟩, ⟨false, 5⟩, [], true, 11⟩

/-- A document toggling message export off. -/
def cfgExportOffNew : Config := ⟨⟨false⟩, ⟨false, 77⟩, [], true, 12⟩

/-- The active document before the toggle: export on. -/
def cfgExportOn : Config := ⟨⟨false⟩, ⟨true, 33⟩, [], true, 13⟩

/-- Oracle trace of a losing node in the cookie-secret race: empty store
on first read, healthy randomness, insert conflict, winner's record on the
fallback read. -/
def envCookieLose : CookieEnv :=
  ⟨.error "store: not found", .ok (List.replicate 32 7),
    some "store: insert conflict", .ok (.marshalled (List.replicate 32 9))⟩

/-- Oracle trace of a losing node in the signing-key race, the winner's
record naming the supported curve. -/
def envKeyLose : KeyEnv :=
  ⟨.error "store: not found", .ok ⟨1, 2, 3⟩,
    some "store: insert conflict", .ok (.marshalled ⟨"P-256", 4, 5, 6⟩)⟩

/-- Oracle trace of a losing node in the signing-key race whose fallback
read returns a record naming the unsupported curve "P-384". -/
def envKeyP384 : KeyEnv :=
  ⟨.error "store: not found", .ok ⟨1, 2, 3⟩,
    some "store: insert conflict", .ok (.marshalled ⟨"P-384", 4, 5, 6⟩)⟩

/-- A persisted signing-key record naming the unsupported curve "P-384". -/
def keyP384 : SystemECDSAKey := ⟨"P-384", 4, 5, 6⟩

/-- Oracle trace whose initial read already finds the P-384 record. -/
def envKeyP384Initial : KeyEnv :=
  ⟨.ok (.marshalled keyP384), .ok ⟨1, 2, 3⟩, none, .error "store: not found"⟩

/-! ## Theorems -/

/-- C3: after every regeneration of the client config snapshot, the stored
hash equals the digest (md5, hex-encoded) of the exact JSON serialization
of the map stored as the client config projection: both are computed from
the same map in the same regeneration. -/
theorem regenerateClientConfig_hash_consistent (env : ClientCfgEnv)
    (marshalJSON : SMap → String) (md5hex : String → String)
    (encodePublicKey : PrivateKey → String) :
    (regenerateClientConfig env marshalJSON md5hex encodePublicKey).clientConfigHash
      = md5hex (marshalJSON
        (regenerateClientConfig env marshalJSON md5hex encodePublicKey).clientConfig) :=
  rfl

/-- C5: calling UpdateConfig while the config store is read-only returns
before doing anything: the store (hence the active document and the
listener registry) is unchanged and the event trace is empty, so the
mutator is never applied, Store.Set is never called and no listener
fires. -/
theorem UpdateConfig_readOnly_noop (s : ConfigStore) (f : Config → Config)
    (h : Store.IsReadOnly s = true) :
    UpdateConfig s f = ⟨s, []⟩ := by
  simp [UpdateConfig, h]

/-- Witness for UpdateConfig_readOnly_noop at a concrete read-only store
and a mutator that would replace the document wholesale. -/
theorem UpdateConfig_readOnly_noop_witness :
    UpdateConfig storeRO (fun _ => cfgB) = ⟨storeRO, []⟩ :=
  UpdateConfig_readOnly_noop storeRO (fun _ => cfgB) rfl

/-- C2: when Store.Set succeeds but the cluster transport's ConfigChanged
reports an error, SaveConfig returns that non-nil error while the active
document has already been swapped: a subsequent Store.Get returns the new
document. -/
theorem SaveConfig_cluster_failure_no_rollback
    (env : SrvEnv) (s : ConfigStore) (newCfg : Config) (e : AppError)
    (hro : s.readOnly = false) (hv : newCfg.validFlag = true)
    (hc : env.hasCluster = true) (he : env.clusterErr = some e) :
    (SaveConfig env s newCfg true).err = some e
      ∧ Store.Get (SaveConfig env s newCfg true).store = newCfg := by
  simp [SaveConfig, Store.Set, Store.Get, hro, hv, hc, he]

/-- Witness for SaveConfig_cluster_failure_no_rollback: a concrete save of
cfgB over a writable store against a failing cluster transport. -/
theorem SaveConfig_cluster_failure_no_rollback_witness :
    (SaveConfig envClusterFail storeRW cfgB true).err = some appErrCluster
      ∧ Store.Get (SaveConfig envClusterFail storeRW cfgB true).store = cfgB :=
  SaveConfig_cluster_failure_no_rollback envClusterFail storeRW cfgB
    appErrCluster rfl rfl rfl rfl

/-- C10: when the local swap succeeds but the cluster notification fails,
SaveConfig returns nil for both the old and the new config alongside the
error, even though the new document is installed in the store. -/
theorem SaveConfig_cluster_failure_nil_configs
    (env : SrvEnv) (s : ConfigStore) (newCfg : Config) (sendMsg : Bool)
    (e : AppError)
    (hro : s.readOnly = false) (hv : newCfg.validFlag = true)
    (hc : env.hasCluster = true) (he : env.clusterErr = some e) :
    (SaveConfig env s newCfg sendMsg).oldCfg = none
      ∧ (SaveConfig env s newCfg sendMsg).newCfg = none
      ∧ (SaveConfig env s newCfg sendMsg).err = some e
      ∧ Store.Get (SaveConfig env s newCfg sendMsg).store = newCfg := by
  simp [SaveConfig, Store.Set, Store.Get, hro, hv, hc, he]

/-- Witness for SaveConfig_cluster_failure_nil_configs at a concrete
broadcast-suppressed save against a failing cluster transport. -/
theorem SaveConfig_cluster_failure_nil_configs_witness :
    (SaveConfig envClusterFail storeRW cfgB false).oldCfg = none
      ∧ (SaveConfig envClusterFail storeRW cfgB false).newCfg = none
      ∧ (SaveConfig envClusterFail storeRW cfgB false).err = some appErrCluster
      ∧ Store.Get (SaveConfig envClusterFail storeRW cfgB false).store = cfgB :=
  SaveConfig_cluster_failure_nil_configs envClusterFail storeRW cfgB false
    appErrCluster rfl rfl rfl rfl

/-- C6: a failing Store.Set maps to a 403 AppError with the stable id
ent.cluster.save_config.error when its cause is the read-only
configuration error, and to a 500 AppError otherwise; in both cases the
store is unchanged and no side effect happens — in particular no cluster
notification is attempted (the event trace is empty). -/
theorem SaveConfig_set_failure_mapping
    (env : SrvEnv) (s : ConfigStore) (newCfg : Config) (sendMsg : Bool) :
    (s.readOnly = true →
      (SaveConfig env s newCfg sendMsg).err
          = some ⟨"saveConfig", "ent.cluster.save_config.error",
              storeErrMsg .readOnly, 403⟩
        ∧ (SaveConfig env s newCfg sendMsg).store = s
        ∧ (SaveConfig env s newCfg sendMsg).events = [])
    ∧ (s.readOnly = false → newCfg.validFlag = false →
      (SaveConfig env s newCfg sendMsg).err
          = some ⟨"saveConfig", "app.save_config.app_error",
              storeErrMsg (.other "invalid config"), 500⟩
        ∧ (SaveConfig env s newCfg sendMsg).store = s
        ∧ (SaveConfig env s newCfg sendMsg).events = []) := by
  constructor
  · intro h
    simp [SaveConfig, Store.Set, h]
  · intro h hv
    simp [SaveConfig, Store.Set, h, hv]

/-- Witness for SaveConfig_set_failure_mapping: the read-only case at a
concrete read-only store. -/
theorem SaveConfig_set_failure_mapping_witness :
    (SaveConfig envPlain storeRO cfgB true).err
        = some ⟨"saveConfig", "ent.cluster.save_config.error",
            storeErrMsg .readOnly, 403⟩
      ∧ (SaveConfig envPlain storeRO cfgB true).store = storeRO
      ∧ (SaveConfig envPlain storeRO cfgB true).events = [] :=
  (SaveConfig_set_failure_mapping envPlain storeRO cfgB true).1 rfl

/-- Helper: the full event trace of a successful SaveConfig — listener
firings from the swap, then the metrics toggle, then the cluster
notification when a cluster is configured. -/
theorem SaveConfig_events_eq
    (env : SrvEnv) (s : ConfigStore) (newCfg : Config) (sendMsg : Bool)
    (hro : s.readOnly = false) (hv : newCfg.validFlag = true) :
    (SaveConfig env s newCfg sendMsg).events
      = s.listeners.map Event.listenerFired
        ++ metricsToggleEvents env newCfg.metricsSettings.enable
        ++ (if env.hasCluster then
              [Event.configChanged (RemoveEnvironmentOverrides s.active)
                (RemoveEnvironmentOverrides newCfg) sendMsg]
            else []) := by
  simp only [SaveConfig, Store.Set, Store.Get, hro, hv]
  simp only [Bool.not_true, Bool.false_eq_true, if_false, ite_false]
  cases hc : env.hasCluster <;> cases hce : env.clusterErr <;>
    simp [hc, hce, Store.Get]

/-- Helper: the cluster notification event never comes from the metrics
toggle block. -/
theorem configChanged_not_mem_metricsToggleEvents
    (env : SrvEnv) (b : Bool) (o n : Config) (br : Bool) :
    Event.configChanged o n br ∉ metricsToggleEvents env b := by
  unfold metricsToggleEvents
  split
  · split <;> simp
  · simp

/-- C7: on every successful SaveConfig with a configured cluster, the
ConfigChanged notification carries exactly RemoveEnvironmentOverrides of
the old and of the new document, and every document a ConfigChanged event
carries has an empty set of environment overrides. -/
theorem SaveConfig_strips_env_overrides
    (env : SrvEnv) (s : ConfigStore) (newCfg : Config) (sendMsg : Bool)
    (hro : s.readOnly = false) (hv : newCfg.validFlag = true)
    (hc : env.hasCluster = true) :
    Event.configChanged (RemoveEnvironmentOverrides s.active)
        (RemoveEnvironmentOverrides newCfg) sendMsg
      ∈ (SaveConfig env s newCfg sendMsg).events
    ∧ ∀ o n b,
        Event.configChanged o n b ∈ (SaveConfig env s newCfg sendMsg).events →
        o.envOverrides = [] ∧ n.envOverrides = [] := by
  rw [SaveConfig_events_eq env s newCfg sendMsg hro hv]
  constructor
  · simp [hc]
  · intro o n b hmem
    simp only [hc, if_true, List.mem_append, List.mem_map,
      List.mem_singleton] at hmem
    rcases hmem with ((⟨id, -, hid⟩ | hm) | hm)
    · simp at hid
    · exact absurd hm (configChanged_not_mem_metricsToggleEvents env _ o n b)
    · simp only [Event.configChanged.injEq] at hm
      obtain ⟨ho, hn, -⟩ := hm
      subst ho; subst hn
      simp [RemoveEnvironmentOverrides]

/-- Witness for SaveConfig_strips_env_overrides: the stripped documents
are what a concrete successful broadcast save hands to the cluster. -/
theorem SaveConfig_strips_env_overrides_witness :
    Event.configChanged (RemoveEnvironmentOverrides storeRW.active)
        (RemoveEnvironmentOverrides cfgB) true
      ∈ (SaveConfig envClusterOk storeRW cfgB true).events :=
  (SaveConfig_strips_env_overrides envClusterOk storeRW cfgB true
    rfl rfl rfl).1

/-- C9 as amended: after every successful SaveConfig the metrics subsystem
is toggled on the conjunction of srv.startMetrics and the new document's
MetricsSettings.Enable — Register (when a metrics implementation is
present) and the metrics server setup happen when both hold, and the
metrics server is stopped when either fails. -/
theorem SaveConfig_metrics_toggle
    (env : SrvEnv) (s : ConfigStore) (newCfg : Config) (sendMsg : Bool)
    (hro : s.readOnly = false) (hv : newCfg.validFlag = true) :
    ((env.startMetrics && newCfg.metricsSettings.enable) = true →
      Event.setupMetricsServer ∈ (SaveConfig env s newCfg sendMsg).events
        ∧ (env.hasMetrics = true →
            Event.metricsRegister ∈ (SaveConfig env s newCfg sendMsg).events)
        ∧ Event.stopMetricsServer ∉ (SaveConfig env s newCfg sendMsg).events)
    ∧ ((env.startMetrics && newCfg.metricsSettings.enable) = false →
      Event.stopMetricsServer ∈ (SaveConfig env s newCfg sendMsg).events
        ∧ Event.setupMetricsServer ∉ (SaveConfig env s newCfg sendMsg).events
        ∧ Event.metricsRegister ∉ (SaveConfig env s newCfg sendMsg).events) := by
  rw [SaveConfig_events_eq env s newCfg sendMsg hro hv]
  cases hcl : env.hasCluster <;> cases hmm : env.hasMetrics <;>
    constructor <;> intro hm <;>
      simp [metricsToggleEvents, hm, hcl, hmm]

/-- Witness for SaveConfig_metrics_toggle: a concrete successful save with
metrics enabled in the document but srv.startMetrics unset stops the
metrics server. -/
theorem SaveConfig_metrics_toggle_witness :
    Event.stopMetricsServer
        ∈ (SaveConfig envNoStartMetrics storeRW cfgMetricsOn true).events
      ∧ Event.setupMetricsServer
        ∉ (SaveConfig envNoStartMetrics storeRW cfgMetricsOn true).events
      ∧ Event.metricsRegister
        ∉ (SaveConfig envNoStartMetrics storeRW cfgMetricsOn true).events :=
  (SaveConfig_metrics_toggle envNoStartMetrics storeRW cfgMetricsOn true
    rfl rfl).2 rfl

/-- C9 fails as stated: a successful SaveConfig whose new document enables
metrics, on a server whose startMetrics flag is unset, does not set up the
metrics server (the additional srv.startMetrics condition is missing from
the claim). -/
theorem SaveConfig_metrics_claim_counterexample :
    ¬ ((SaveConfig envNoStartMetrics storeRW cfgMetricsOn true).err = none →
        cfgMetricsOn.metricsSettings.enable = true →
        Event.setupMetricsServer
          ∈ (SaveConfig envNoStartMetrics storeRW cfgMetricsOn true).events) := by
  decide

/-- C4: when the persisted signing-key record decodes successfully but
names a curve other than "P-256", ensureAsymmetricSigningKey returns the
unknown-curve error: no key is cached and no fresh key is generated or
saved (no Save attempt appears in the trace). -/
theorem ensureAsymmetricSigningKey_unknown_curve
    (k : SystemECDSAKey) (env : KeyEnv)
    (hr : env.read1 = .ok (.marshalled k)) (hcurve : k.curve ≠ "P-256") :
    (ensureAsymmetricSigningKey none env).res
        = .err ("unknown curve: " ++ k.curve)
      ∧ (ensureAsymmetricSigningKey none env).cached = none
      ∧ SecretEvent.saveAttempt ∉ (ensureAsymmetricSigningKey none env).events := by
  simp [ensureAsymmetricSigningKey, keyInitialRead, unmarshalSigningKey,
    adoptKey, hr, hcurve]

/-- Witness for ensureAsymmetricSigningKey_unknown_curve at a concrete
record naming "P-384". -/
theorem ensureAsymmetricSigningKey_unknown_curve_witness :
    (ensureAsymmetricSigningKey none envKeyP384Initial).res
        = .err ("unknown curve: " ++ keyP384.curve)
      ∧ (ensureAsymmetricSigningKey none envKeyP384Initial).cached = none
      ∧ SecretEvent.saveAttempt
        ∉ (ensureAsymmetricSigningKey none envKeyP384Initial).events :=
  ensureAsymmetricSigningKey_unknown_curve keyP384 envKeyP384Initial rfl
    (by decide)

/-- C1 fails as stated for ensureAsymmetricSigningKey: on a losing node
whose fallback read returns a decodable record naming "P-384", the
fallback read is performed and succeeds, its result decodes, and yet the
operation returns an error (the unknown-curve error), so the claimed
"error if and only if the fallback read or its decode fails" is false at
this input. -/
theorem ensureAsymmetricSigningKey_fallback_iff_counterexample :
    SecretEvent.readFallback
        ∈ (ensureAsymmetricSigningKey none envKeyP384).events
      ∧ envKeyP384.saveRes.isSome = true
      ∧ ¬ ((ensureAsymmetricSigningKey none envKeyP384).res.isErr = true
            ↔ keyFallbackFails envKeyP384 = true) := by
  decide

/-- C1 as amended: on any call with no cached secret, no secret adopted
from the initial read, successful generation and a failing insert, the
fallback read is performed and the operation errors exactly when that
fallback read fails, its result fails to decode, or — for the asymmetric
key only — the decoded record names a curve other than "P-256". The Save
failure itself is never the returned error. -/
theorem ensureSecret_save_failure_fallback
    (envC : CookieEnv) (envK : KeyEnv) (bs : Bytes) (se : GoErr)
    (g : ECDSAGenerated) (sk : GoErr)
    (hC1 : cookieInitialRead envC.read1 = .ok none)
    (hC2 : envC.randRead = .ok bs)
    (hC3 : envC.saveRes = some se)
    (hK1 : keyInitialRead envK.read1 = .ok none)
    (hK2 : envK.genKey = .ok g)
    (hK3 : envK.saveRes = some sk) :
    (SecretEvent.readFallback
        ∈ (ensurePostActionCookieSecret none envC).events
      ∧ ((ensurePostActionCookieSecret none envC).res.isErr = true
          ↔ cookieFallbackFails envC = true))
    ∧ (SecretEvent.readFallback
        ∈ (ensureAsymmetricSigningKey none envK).events
      ∧ ((ensureAsymmetricSigningKey none envK).res.isErr = true
          ↔ (keyFallbackFails envK = true
              ∨ keyFallbackUnknownCurve envK = true))) := by
  constructor
  · simp only [ensurePostActionCookieSecret, hC1, hC2, hC3,
      Option.isSome_some, Option.isSome_none, cookieFallbackFails]
    cases h2 : envC.read2 with
    | error e => simp [GoResult.isErr]
    | ok v => cases v <;> simp [unmarshalCookieSecret, GoResult.isErr]
  · simp only [ensureAsymmetricSigningKey, hK1, hK2, hK3,
      Option.isSome_some, Option.isSome_none, keyFallbackFails,
      keyFallbackUnknownCurve]
    cases h2 : envK.read2 with
    | error e => simp [GoResult.isErr]
    | ok v =>
      cases v with
      | corrupt => simp [unmarshalSigningKey, GoResult.isErr]
      | nullLit => simp [unmarshalSigningKey, GoResult.isErr]
      | marshalled k =>
        simp only [unmarshalSigningKey, adoptKey]
        by_cases hk : k.curve = "P-256" <;>
          simp [hk, GoResult.isErr]

/-- Witness for ensureSecret_save_failure_fallback: concrete losing-node
traces for both secret kinds, with the winner's key on the supported
curve. -/
theorem ensureSecret_save_failure_fallback_witness :
    (SecretEvent.readFallback
        ∈ (ensurePostActionCookieSecret none envCookieLose).events
      ∧ ((ensurePostActionCookieSecret none envCookieLose).res.isErr = true
          ↔ cookieFallbackFails envCookieLose = true))
    ∧ (SecretEvent.readFallback
        ∈ (ensureAsymmetricSigningKey none envKeyLose).events
      ∧ ((ensureAsymmetricSigningKey none envKeyLose).res.isErr = true
          ↔ (keyFallbackFails envKeyLose = true
              ∨ keyFallbackUnknownCurve envKeyLose = true))) :=
  ensureSecret_save_failure_fallback envCookieLose envKeyLose
    (List.replicate 32 7) "store: insert conflict" ⟨1, 2, 3⟩
    "store: insert conflict" rfl rfl rfl rfl rfl rfl

/-- C8: HandleMessageExportConfig changes at most the export-from
timestamp of cfg's message-export settings: enabling export with a zero
timestamp stamps the current time, disabling export resets it to zero,
and an unchanged enable flag leaves it untouched. -/
theorem HandleMessageExportConfig_rewrites_only_timestamp
    (now : Int) (cfg appCfg : Config) :
    ((HandleMessageExportConfig now cfg appCfg).metricsSettings
        = cfg.metricsSettings
      ∧ (HandleMessageExportConfig now cfg appCfg).envOverrides
        = cfg.envOverrides
      ∧ (HandleMessageExportConfig now cfg appCfg).validFlag = cfg.validFlag
      ∧ (HandleMessageExportConfig now cfg appCfg).payload = cfg.payload
      ∧ (HandleMessageExportConfig now cfg appCfg).messageExportSettings.enableExport
        = cfg.messageExportSettings.enableExport)
    ∧ (appCfg.messageExportSettings.enableExport = false →
        cfg.messageExportSettings.enableExport = true →
        cfg.messageExportSettings.exportFromTimestamp = 0 →
        (HandleMessageExportConfig now cfg appCfg).messageExportSettings.exportFromTimestamp
          = now)
    ∧ (appCfg.messageExportSettings.enableExport = true →
        cfg.messageExportSettings.enableExport = false →
        (HandleMessageExportConfig now cfg appCfg).messageExportSettings.exportFromTimestamp
          = 0)
    ∧ (cfg.messageExportSettings.enableExport
          = appCfg.messageExportSettings.enableExport →
        (HandleMessageExportConfig now cfg appCfg).messageExportSettings.exportFromTimestamp
          = cfg.messageExportSettings.exportFromTimestamp) := by
  refine ⟨?_, ?_, ?_, ?_⟩
  · unfold HandleMessageExportConfig
    split
    · split
      · simp
      · split
        · simp
        · simp
    · simp
  · intro h1 h2 h3
    simp [HandleMessageExportConfig, h1, h2, h3]
  · intro h1 h2
    simp [HandleMessageExportConfig, h1, h2]
  · intro h
    simp [HandleMessageExportConfig, h]

/-- Witness for HandleMessageExportConfig_rewrites_only_timestamp:
toggling export on with a zero timestamp at time 1234 stamps 1234. -/
theorem HandleMessageExportConfig_witness :
    (HandleMessageExportConfig 1234 cfgExportOnZero cfgExportOff).messageExportSettings.exportFromTimestamp
      = 1234 :=
  (HandleMessageExportConfig_rewrites_only_timestamp 1234 cfgExportOnZero
    cfgExportOff).2.1 rfl rfl rfl

end MMApp
